import Mathlib

/-!
Shallow embedding of `src/acestep/diffusion_core.py` (ACE-Step unified
diffusion loop).  Scalar timesteps, shifts and guidance scales are modelled
as rationals; tensors appearing only through external model operations are
kept as abstract types.  The first part embeds the variant registry and the
`TimestepScheduler`; the second part embeds the diffusion loop of
`generate_audio_core` as an iterated step function.
-/

namespace AceStep

/-- Timestep scheduling strategy of a variant; the source stores the strings
"linear" | "discrete" | "continuous" in `VariantConfig.timestep_mode`. -/
inductive TMode where
  | linear
  | discrete
  | continuous
  deriving DecidableEq

/-- Custom-timestep handling mode; the source stores the strings
"none" | "with_terminal" | "strip_zeros" | "map_nearest". -/
inductive CustomMode where
  | none
  | with_terminal
  | strip_zeros
  | map_nearest
  deriving DecidableEq

/-- Embedding of the `VariantConfig` dataclass (diffusion_core.py lines 64-74). -/
structure VariantConfig where
  use_cfg : Bool
  timestep_mode : TMode
  default_shift : ℚ
  forced_shift : Option ℚ
  default_steps : ℕ
  sde_renoise_linear : Bool
  custom_timesteps : CustomMode
  shift_range : Option (ℚ × ℚ)

/-- Config of the "acestep-v15-base" variant. -/
def baseConfig : VariantConfig :=
  { use_cfg := true, timestep_mode := TMode.linear, default_shift := 1,
    forced_shift := Option.none, default_steps := 30, sde_renoise_linear := true,
    custom_timesteps := CustomMode.none, shift_range := Option.none }

/-- Config of the "acestep-v15-sft" variant. -/
def sftConfig : VariantConfig :=
  { use_cfg := true, timestep_mode := TMode.linear, default_shift := 1,
    forced_shift := Option.none, default_steps := 30, sde_renoise_linear := true,
    custom_timesteps := CustomMode.with_terminal, shift_range := Option.none }

/-- Config of the "acestep-v15-turbo" variant. -/
def turboConfig : VariantConfig :=
  { use_cfg := false, timestep_mode := TMode.discrete, default_shift := 3,
    forced_shift := Option.none, default_steps := 8, sde_renoise_linear := false,
    custom_timesteps := CustomMode.map_nearest, shift_range := Option.none }

/-- Config of the "acestep-v15-turbo-shift1" variant. -/
def turboShift1Config : VariantConfig :=
  { use_cfg := false, timestep_mode := TMode.linear, default_shift := 1,
    forced_shift := Option.none, default_steps := 8, sde_renoise_linear := false,
    custom_timesteps := CustomMode.with_terminal, shift_range := Option.none }

/-- Config of the "acestep-v15-turbo-shift3" variant. -/
def turboShift3Config : VariantConfig :=
  { use_cfg := false, timestep_mode := TMode.linear, default_shift := 1,
    forced_shift := some 3, default_steps := 8, sde_renoise_linear := false,
    custom_timesteps := CustomMode.with_terminal, shift_range := Option.none }

/-- Config of the "acestep-v15-turbo-continuous" variant. -/
def turboContinuousConfig : VariantConfig :=
  { use_cfg := false, timestep_mode := TMode.continuous, default_shift := 3,
    forced_shift := Option.none, default_steps := 8, sde_renoise_linear := false,
    custom_timesteps := CustomMode.strip_zeros, shift_range := some (1, 5) }

/-- Embedding of the `MODEL_VARIANT_CONFIGS` dict (lines 77-108) as an
association list in the source's insertion order. -/
def MODEL_VARIANT_CONFIGS : List (String × VariantConfig) :=
  [("acestep-v15-base", baseConfig),
   ("acestep-v15-sft", sftConfig),
   ("acestep-v15-turbo", turboConfig),
   ("acestep-v15-turbo-shift1", turboShift1Config),
   ("acestep-v15-turbo-shift3", turboShift3Config),
   ("acestep-v15-turbo-continuous", turboContinuousConfig)]

/-- Embedding of `TURBO_VALID_SHIFTS` (line 113). -/
def TURBO_VALID_SHIFTS : List ℚ := [1, 2, 3]

/-- Embedding of `TURBO_VALID_TIMESTEPS` (lines 115-120); the source's float
literals are read as exact decimal rationals. -/
def TURBO_VALID_TIMESTEPS : List ℚ :=
  [1.0, 0.9545454545454546, 0.9333333333333333, 0.9, 0.875,
   0.8571428571428571, 0.8333333333333334, 0.7692307692307693, 0.75,
   0.6666666666666666, 0.6428571428571429, 0.625, 0.5454545454545454,
   0.5, 0.4, 0.375, 0.3, 0.25, 0.2222222222222222, 0.125]

/-- Embedding of the `TURBO_SHIFT_TIMESTEPS` dict (lines 122-128); the dict
has exactly the keys 1.0, 2.0, 3.0 and is only consulted at those keys. -/
def TURBO_SHIFT_TIMESTEPS (shift : ℚ) : List ℚ :=
  if shift = 1 then
    [1.0, 0.875, 0.75, 0.625, 0.5, 0.375, 0.25, 0.125]
  else if shift = 2 then
    [1.0, 0.9333333333333333, 0.8571428571428571, 0.7692307692307693,
     0.6666666666666666, 0.5454545454545454, 0.4, 0.2222222222222222]
  else
    [1.0, 0.9545454545454546, 0.9, 0.8333333333333334, 0.75,
     0.6428571428571429, 0.5, 0.3]

/-- Python's `min(l, key=key)` on a nonempty list: the first element whose key
is minimal wins (later elements replace the best only on strict decrease). -/
def minByKey (key : ℚ → ℚ) : List ℚ → Option ℚ
  | [] => Option.none
  | x :: xs => some (xs.foldl (fun best y => if key y < key best then y else best) x)

/-- Embedding of `min(candidates, key=lambda x: abs(x - t))` (lines 209, 265). -/
def nearestIn (candidates : List ℚ) (t : ℚ) : ℚ :=
  (minByKey (fun x => |x - t|) candidates).getD t

/-- Embedding of the `while ts_list and ts_list[-1] == 0: ts_list.pop()` loop
(lines 250-251): removes all trailing zero entries. -/
def stripTrailingZeros (l : List ℚ) : List ℚ :=
  (l.reverse.dropWhile (fun x => x = 0)).reverse

/-- Embedding of `TimestepScheduler._linear` (lines 178-184):
`torch.linspace(1, 0, N+1)` followed by the rational shift remap when
`shift != 1`. -/
def linearSchedule (num_steps : ℕ) (shift : ℚ) : List ℚ :=
  let t := (List.range (num_steps + 1)).map
    (fun (i : ℕ) => 1 - (i : ℚ) / (num_steps : ℚ))
  if shift ≠ 1 then t.map (fun x => shift * x / (1 + (shift - 1) * x)) else t

/-- Embedding of `TimestepScheduler._discrete` (lines 186-216).  Raising
`ValueError` is modelled as `Except.error`. -/
def discreteSchedule (shift : ℚ) (num_steps : ℕ) (scheduler_explicit : Bool) :
    Except String (List ℚ) :=
  if num_steps ≠ 8 then
    if scheduler_explicit then
      Except.error "Discrete scheduler only supports 8 steps"
    else
      Except.ok (linearSchedule num_steps shift)
  else
    Except.ok (TURBO_SHIFT_TIMESTEPS (nearestIn TURBO_VALID_SHIFTS shift) ++ [0])

/-- Embedding of `TimestepScheduler._continuous` (lines 218-235). -/
def continuousSchedule (num_steps : ℕ) (shift : ℚ) (config : VariantConfig) :
    List ℚ :=
  let shift2 :=
    match config.shift_range with
    | some (lo, hi) => if shift < lo ∨ hi < shift then max lo (min hi shift) else shift
    | Option.none => shift
  let linear_ts := (List.range num_steps).map
    (fun (i : ℕ) => ((num_steps : ℚ) - (i : ℚ)) / (num_steps : ℚ))
  (linear_ts.map (fun t => shift2 * t / (1 + (shift2 - 1) * t))) ++ [0]

/-- Embedding of `TimestepScheduler._try_custom` (lines 237-273); `None`
means invalid, the caller falls back to the default computation. -/
def tryCustom (config : VariantConfig) (ts : List ℚ) : Option (List ℚ) :=
  if config.custom_timesteps = CustomMode.with_terminal then
    if ts.length < 2 then Option.none else some ts
  else if stripTrailingZeros ts = [] then Option.none
  else if config.custom_timesteps = CustomMode.map_nearest then
    some (((stripTrailingZeros ts).take 20).map
      (fun t => nearestIn TURBO_VALID_TIMESTEPS t) ++ [0])
  else
    some (stripTrailingZeros ts ++ [0])

/-- The custom-timestep gate at the top of `TimestepScheduler.compute`
(lines 164-168): custom timesteps are attempted only when they are supplied
and the variant's `custom_timesteps` mode is not "none". -/
def customResult (config : VariantConfig) (timesteps : Option (List ℚ)) :
    Option (List ℚ) :=
  match timesteps with
  | Option.none => Option.none
  | some ts =>
    if config.custom_timesteps = CustomMode.none then Option.none
    else tryCustom config ts

/-- Embedding of `TimestepScheduler.compute` (lines 143-176): forced shift
overrides the caller's shift, custom timesteps are tried first, then the
default computation dispatches on `timestep_mode`. -/
def compute (config : VariantConfig) (num_steps : ℕ) (shift : ℚ)
    (timesteps : Option (List ℚ)) (scheduler_explicit : Bool) :
    Except String (List ℚ) :=
  let shift := config.forced_shift.getD shift
  match customResult config timesteps with
  | some r => Except.ok r
  | Option.none =>
    match config.timestep_mode with
    | TMode.discrete => discreteSchedule shift num_steps scheduler_explicit
    | TMode.continuous => Except.ok (continuousSchedule num_steps shift config)
    | TMode.linear => Except.ok (linearSchedule num_steps shift)

/-- First index of an entry `≤ bound` in a list, mirroring
`mask = eval_ts <= t_start + 1e-6; mask.nonzero()[0]` in `truncate`. -/
def findFirstLe (bound : ℚ) : List ℚ → Option ℕ
  | [] => Option.none
  | x :: xs =>
    if x ≤ bound then some 0 else (findFirstLe bound xs).map (fun i => i + 1)

/-- Embedding of `TimestepScheduler.truncate` (lines 275-296). -/
def truncate (schedule : List ℚ) (t_start : ℚ) : List ℚ :=
  if 1 - 1/1000000 ≤ t_start then schedule
  else
    match findFirstLe (t_start + 1/1000000) schedule.dropLast with
    | Option.none => schedule
    | some idx => schedule.drop idx

/-- Embedding of the derived-config construction in `generate_audio_core`
(lines 364-373): a copy of the base config with only `timestep_mode`
replaced, every field written out as in the source. -/
def overrideConfig (config : VariantConfig) (mode : TMode) : VariantConfig :=
  { use_cfg := config.use_cfg,
    timestep_mode := mode,
    default_shift := config.default_shift,
    forced_shift := config.forced_shift,
    default_steps := config.default_steps,
    sde_renoise_linear := config.sde_renoise_linear,
    custom_timesteps := config.custom_timesteps,
    shift_range := config.shift_range }

/-- Embedding of `cover_steps = int(num_steps * audio_cover_strength)`
(line 461); for the nonnegative strengths in use, Python's `int()`
truncation equals the floor. -/
def coverStepsOf (num_steps : ℕ) (strength : ℚ) : ℕ :=
  (⌊(num_steps : ℚ) * strength⌋).toNat

/-- Embedding of `do_cfg_guidance = config.use_cfg and diffusion_guidance_sale > 1.0`
(line 470). -/
def doCfgGuidance (config : VariantConfig) (guidance_scale : ℚ) : Bool :=
  config.use_cfg && decide (1 < guidance_scale)

/-- External model operations consumed by the diffusion loop
(`decoder`, `get_x0_from_noise`, `renoise`, `prepare_condition` outputs,
the null-conditioning embedding expansion, batch concatenation along dim 0,
`chunk(2)`, and the plugin guidance functions).  Latents have type `L`,
encoder hidden states `C`, masks `M`, context latents `X`, the key-value
cache `K`, the guidance momentum buffer `B`. -/
structure DiffEnv (L C M X K B : Type) where
  decoder : L → ℚ → M → C → M → X → K → L × K
  get_x0_from_noise : L → L → ℚ → L
  renoise : L → ℚ → L
  null_expand : C → C
  catL : L → L → L
  catC : C → C → C
  catM : M → M → M
  catX : X → X → X
  chunk2 : L → L × L
  apg_forward : L → L → ℚ → Option B → L × Option B
  adg_forward : L → L → L → ℚ → ℚ → L
  emptyCache : K
  newMomentum : B

/-- The non-cover conditioning triple prepared when
`audio_cover_strength < 1.0` (lines 411-440). -/
structure NonCover (C M X : Type) where
  enc_hs : C
  enc_mask : M
  ctx_lat : X

/-- Mutable state of the diffusion loop: the current latent `xt`, the active
conditioning triple, the key-value cache, the (mutable) non-cover
conditioning, the once-only CFG-doubling flag for the non-cover branch, the
guidance momentum buffer, and an instrumentation counter
`nc_double_count` that counts executions of the non-cover CFG-doubling
branch (lines 506-521). -/
structure LoopState (L C M X K B : Type) where
  xt : L
  encoder_hidden_states : C
  encoder_attention_mask : M
  context_latents : X
  past_key_values : K
  non_cover : Option (NonCover C M X)
  cover_cfg_doubled : Bool
  momentum_buffer : Option B
  nc_double_count : ℕ

/-- Per-step observation: the latent and cache entering the decoder call,
the current schedule value, the guided prediction `vt`, and the latent
produced by the step update. -/
structure StepRecord (L K : Type) where
  xtIn : L
  cacheIn : K
  tCurr : ℚ
  vt : L
  xtOut : L

/-- Fixed data of one `generate_audio_core` run as seen from inside the
diffusion loop (lines 498-608). -/
structure RunCtx (L C M X K B : Type) where
  env : DiffEnv L C M X K B
  cfg : VariantConfig
  infer_method : String
  guidance_scale : ℚ
  use_adg : Bool
  cfg_interval_start : ℚ
  cfg_interval_end : ℚ
  schedule : List ℚ
  coverSteps : ℕ
  attention_mask : M

/-- `num_steps = len(schedule) - 1` (line 460). -/
def RunCtx.numSteps {L C M X K B : Type} (ctx : RunCtx L C M X K B) : ℕ :=
  ctx.schedule.length - 1

/-- Embedding of the cover-condition switch (lines 505-528): on every step
at or past `cover_steps` with non-cover conditioning present, the active
conditioning is swapped to the non-cover triple and the key-value cache is
replaced by a fresh empty one; under CFG the non-cover triple is itself
doubled, guarded by `cover_cfg_doubled` so this happens at most once. -/
def coverSwitch {L C M X K B : Type} (ctx : RunCtx L C M X K B) (i : ℕ)
    (s : LoopState L C M X K B) : LoopState L C M X K B :=
  match s.non_cover with
  | Option.none => s
  | some nc0 =>
    if ctx.coverSteps ≤ i then
      if doCfgGuidance ctx.cfg ctx.guidance_scale ∧ s.cover_cfg_doubled = false then
        let nc1 : NonCover C M X :=
          { enc_hs := ctx.env.catC nc0.enc_hs (ctx.env.null_expand nc0.enc_hs),
            enc_mask := ctx.env.catM nc0.enc_mask nc0.enc_mask,
            ctx_lat := ctx.env.catX nc0.ctx_lat nc0.ctx_lat }
        { s with non_cover := some nc1, cover_cfg_doubled := true,
                 nc_double_count := s.nc_double_count + 1,
                 encoder_hidden_states := nc1.enc_hs,
                 encoder_attention_mask := nc1.enc_mask,
                 context_latents := nc1.ctx_lat,
                 past_key_values := ctx.env.emptyCache }
      else
        { s with encoder_hidden_states := nc0.enc_hs,
                 encoder_attention_mask := nc0.enc_mask,
                 context_latents := nc0.ctx_lat,
                 past_key_values := ctx.env.emptyCache }
    else s

/-- Embedding of the CFG guidance block (lines 557-580): split the raw
prediction, apply APG or ADG inside the guidance interval, otherwise keep
the conditional half; without CFG the raw prediction passes through. -/
def guide {L C M X K B : Type} (ctx : RunCtx L C M X K B) (xtCur : L)
    (tCurr : ℚ) (vtRaw : L) (mom : Option B) : L × Option B :=
  if doCfgGuidance ctx.cfg ctx.guidance_scale then
    let pred_cond := (ctx.env.chunk2 vtRaw).1
    let pred_null_cond := (ctx.env.chunk2 vtRaw).2
    if ctx.cfg_interval_start ≤ tCurr ∧ tCurr ≤ ctx.cfg_interval_end then
      if ctx.use_adg then
        (ctx.env.adg_forward xtCur pred_cond pred_null_cond tCurr ctx.guidance_scale, mom)
      else
        ctx.env.apg_forward pred_cond pred_null_cond ctx.guidance_scale mom
    else (pred_cond, mom)
  else (vtRaw, mom)

/-- Embedding of the step update (lines 582-608): the terminal-step shortcut
computes the clean latent via `get_x0_from_noise`; otherwise SDE re-noises
the clean estimate to `t_next` (unshifted linear or schedule value), and ODE
advances `xt - vt * (t_curr - t_next)`. -/
def stepUpdate {L C M X K B : Type} [Sub L] [SMul ℚ L]
    (ctx : RunCtx L C M X K B) (i : ℕ) (x vt : L) : L :=
  let tCurr := ctx.schedule.getD i 0
  if i + 1 = ctx.numSteps then
    ctx.env.get_x0_from_noise x vt tCurr
  else if ctx.infer_method = "sde" then
    let pred_clean := ctx.env.get_x0_from_noise x vt tCurr
    let next_t :=
      if ctx.cfg.sde_renoise_linear then 1 - ((i : ℚ) + 1) / (ctx.numSteps : ℚ)
      else ctx.schedule.getD (i + 1) 0
    ctx.env.renoise pred_clean next_t
  else if ctx.infer_method = "ode" then
    x - (tCurr - ctx.schedule.getD (i + 1) 0) • vt
  else x

/-- One iteration of the diffusion loop (lines 499-608): cover switch,
decoder invocation (batch doubled under CFG), guidance, step update. -/
def runStep {L C M X K B : Type} [Sub L] [SMul ℚ L]
    (ctx : RunCtx L C M X K B) (i : ℕ) (s : LoopState L C M X K B) :
    StepRecord L K × LoopState L C M X K B :=
  let tCurr := ctx.schedule.getD i 0
  let s1 := coverSwitch ctx i s
  let x_in :=
    if doCfgGuidance ctx.cfg ctx.guidance_scale then ctx.env.catL s1.xt s1.xt
    else s1.xt
  let dec := ctx.env.decoder x_in tCurr ctx.attention_mask
    s1.encoder_hidden_states s1.encoder_attention_mask s1.context_latents
    s1.past_key_values
  let g := guide ctx s1.xt tCurr dec.1 s1.momentum_buffer
  let xtNext := stepUpdate ctx i s1.xt g.1
  ({ xtIn := s1.xt, cacheIn := s1.past_key_values, tCurr := tCurr,
     vt := g.1, xtOut := xtNext },
   { s1 with xt := xtNext, past_key_values := dec.2, momentum_buffer := g.2 })

/-- State of the loop before step `i` (the loop of line 499, unrolled). -/
def stateAt {L C M X K B : Type} [Sub L] [SMul ℚ L]
    (ctx : RunCtx L C M X K B) (s0 : LoopState L C M X K B) : ℕ → LoopState L C M X K B
  | 0 => s0
  | i + 1 => (runStep ctx i (stateAt ctx s0 i)).2

/-- Observation of step `i` of the loop. -/
def recordAt {L C M X K B : Type} [Sub L] [SMul ℚ L]
    (ctx : RunCtx L C M X K B) (s0 : LoopState L C M X K B) (i : ℕ) :
    StepRecord L K :=
  (runStep ctx i (stateAt ctx s0 i)).1

/-- The latent returned by the run (`x_gen = xt` after the loop,
lines 610-611; the terminal-step shortcut breaks out of iteration
`num_steps - 1`, so the loop performs exactly `num_steps` updates). -/
def finalLatent {L C M X K B : Type} [Sub L] [SMul ℚ L]
    (ctx : RunCtx L C M X K B) (s0 : LoopState L C M X K B) : L :=
  (stateAt ctx s0 ctx.numSteps).xt

/-- Result of the pre-loop CFG setup (lines 469-495). -/
structure SetupResult (L C M X K B : Type) where
  state : LoopState L C M X K B
  attention_mask : M
  guidance_loaded : Bool

/-- Embedding of the pre-loop CFG setup (lines 469-495): exactly when
`do_cfg_guidance` holds, the guidance plugin is loaded, a momentum buffer is
allocated, and the conditioning batch is doubled with the null embedding;
the key-value cache starts empty in either case. -/
def cfgSetup {L C M X K B : Type} (env : DiffEnv L C M X K B)
    (config : VariantConfig) (guidance_scale : ℚ) (xt : L) (enc : C)
    (encMask : M) (ctxLat : X) (attn : M) (non_cover : Option (NonCover C M X)) :
    SetupResult L C M X K B :=
  if doCfgGuidance config guidance_scale then
    { state :=
      { xt := xt,
        encoder_hidden_states := env.catC enc (env.null_expand enc),
        encoder_attention_mask := env.catM encMask encMask,
        context_latents := env.catX ctxLat ctxLat,
        past_key_values := env.emptyCache,
        non_cover := non_cover,
        cover_cfg_doubled := false,
        momentum_buffer := some env.newMomentum,
        nc_double_count := 0 },
      attention_mask := env.catM attn attn,
      guidance_loaded := true }
  else
    { state :=
      { xt := xt,
        encoder_hidden_states := enc,
        encoder_attention_mask := encMask,
        context_latents := ctxLat,
        past_key_values := env.emptyCache,
        non_cover := non_cover,
        cover_cfg_doubled := false,
        momentum_buffer := Option.none,
        nc_double_count := 0 },
      attention_mask := attn,
      guidance_loaded := false }

/-! ### Concrete environments for the witnesses -/

/-- Concrete model environment over rational "tensors": every external
operation is instantiated with simple rational arithmetic. -/
def sampleEnv : DiffEnv ℚ ℚ ℚ ℚ ℚ ℚ :=
  { decoder := fun x _ _ _ _ _ k => (x, k + 1),
    get_x0_from_noise := fun x v t => x - t * v,
    renoise := fun x t => x + t,
    null_expand := fun c => c + 1,
    catL := fun a b => a + b,
    catC := fun a b => a + b,
    catM := fun a b => a + b,
    catX := fun a b => a + b,
    chunk2 := fun v => (v, v),
    apg_forward := fun pc _ _ m => (pc, m),
    adg_forward := fun _ pc _ _ _ => pc,
    emptyCache := 0,
    newMomentum := 0 }

/-- Environment whose decoder returns the fixed prediction 2. -/
def constEnv : DiffEnv ℚ ℚ ℚ ℚ ℚ ℚ :=
  { sampleEnv with decoder := fun _ _ _ _ _ _ k => (2, k) }

/-- A concrete non-cover conditioning triple. -/
def sampleNC : NonCover ℚ ℚ ℚ :=
  { enc_hs := 5, enc_mask := 6, ctx_lat := 7 }

/-- A concrete initial loop state with non-cover conditioning present. -/
def sampleState : LoopState ℚ ℚ ℚ ℚ ℚ ℚ :=
  { xt := 1, encoder_hidden_states := 0, encoder_attention_mask := 0,
    context_latents := 0, past_key_values := 0, non_cover := some sampleNC,
    cover_cfg_doubled := false, momentum_buffer := Option.none,
    nc_double_count := 0 }

/-- A 2-step SDE run context (turbo variant, no CFG). -/
def sdeCtx : RunCtx ℚ ℚ ℚ ℚ ℚ ℚ :=
  { env := sampleEnv, cfg := turboConfig, infer_method := "sde",
    guidance_scale := 1, use_adg := false,
    cfg_interval_start := 0, cfg_interval_end := 1,
    schedule := [1, 1/2, 0], coverSteps := 5, attention_mask := 1 }

/-- A 2-step ODE run context with the constant decoder. -/
def odeCtx : RunCtx ℚ ℚ ℚ ℚ ℚ ℚ :=
  { env := constEnv, cfg := turboConfig, infer_method := "ode",
    guidance_scale := 1, use_adg := false,
    cfg_interval_start := 0, cfg_interval_end := 1,
    schedule := [1, 1/2, 0], coverSteps := 5, attention_mask := 1 }

/-- A 2-step ODE run context with CFG active (base variant, scale 2) and a
mid-loop cover switch at step `coverStepsOf 2 (1/2) = 1`. -/
def cfgCtx : RunCtx ℚ ℚ ℚ ℚ ℚ ℚ :=
  { env := sampleEnv, cfg := baseConfig, infer_method := "ode",
    guidance_scale := 2, use_adg := false,
    cfg_interval_start := 0, cfg_interval_end := 1,
    schedule := [1, 1/2, 0], coverSteps := coverStepsOf 2 (1/2),
    attention_mask := 1 }

/-! ### Helper lemmas about the scheduler -/

theorem linearSchedule_length (n : ℕ) (shift : ℚ) :
    (linearSchedule n shift).length = n + 1 := by
  unfold linearSchedule
  split
  · rw [List.length_map, List.length_map, List.length_range]
  · rw [List.length_map, List.length_range]

theorem continuousSchedule_length (n : ℕ) (shift : ℚ) (config : VariantConfig) :
    (continuousSchedule n shift config).length = n + 1 := by
  unfold continuousSchedule
  rw [List.length_append, List.length_map, List.length_map, List.length_range]
  rfl

theorem TURBO_SHIFT_TIMESTEPS_length (shift : ℚ) :
    (TURBO_SHIFT_TIMESTEPS shift).length = 8 := by
  unfold TURBO_SHIFT_TIMESTEPS
  split <;> [rfl; skip]
  split <;> rfl

theorem tryCustom_length {config : VariantConfig} {ts r : List ℚ}
    (h : tryCustom config ts = some r) : 2 ≤ r.length := by
  unfold tryCustom at h
  split at h
  · split at h
    · exact absurd h (by simp)
    · rename_i hlen
      rw [Option.some_inj] at h
      subst h
      omega
  · split at h
    · exact absurd h (by simp)
    · rename_i hne
      have hpos : 0 < (stripTrailingZeros ts).length :=
        List.length_pos.mpr hne
      split at h <;>
      · rw [Option.some_inj] at h
        subst h
        simp only [List.length_append, List.length_map, List.length_take,
          List.length_cons, List.length_nil]
        omega

theorem customResult_length {config : VariantConfig} {ts : Option (List ℚ)}
    {r : List ℚ} (h : customResult config ts = some r) : 2 ≤ r.length := by
  unfold customResult at h
  match ts with
  | Option.none => exact absurd h (by simp)
  | some l =>
    simp only at h
    split at h
    · exact absurd h (by simp)
    · exact tryCustom_length h

theorem compute_ok_length {config : VariantConfig} {n : ℕ} {shift : ℚ}
    {ts : Option (List ℚ)} {ex : Bool} {s : List ℚ}
    (h : compute config n shift ts ex = Except.ok s) (hn : 1 ≤ n) :
    2 ≤ s.length := by
  unfold compute at h
  rcases hcr : customResult config ts with _ | r
  · rw [hcr] at h
    simp only at h
    split at h
    · -- discrete
      unfold discreteSchedule at h
      split at h
      · split at h
        · exact absurd h (by simp)
        · rw [Except.ok.injEq] at h
          subst h
          rw [linearSchedule_length]
          omega
      · rw [Except.ok.injEq] at h
        subst h
        rw [List.length_append, TURBO_SHIFT_TIMESTEPS_length]
        omega
    · -- continuous
      rw [Except.ok.injEq] at h
      subst h
      rw [continuousSchedule_length]
      omega
    · -- linear
      rw [Except.ok.injEq] at h
      subst h
      rw [linearSchedule_length]
      omega
  · rw [hcr] at h
    simp only [Except.ok.injEq] at h
    subst h
    exact customResult_length hcr

/-! ### Helper lemmas about `findFirstLe` -/

theorem findFirstLe_eq_none_iff {b : ℚ} {l : List ℚ} :
    findFirstLe b l = Option.none ↔ ∀ x ∈ l, ¬ x ≤ b := by
  induction l with
  | nil => simp [findFirstLe]
  | cons x xs ih =>
    by_cases h : x ≤ b
    · simp [findFirstLe, h]
    · rw [findFirstLe, if_neg h, Option.map_eq_none', ih]
      constructor
      · intro hall y hy
        rcases List.mem_cons.mp hy with rfl | hy'
        · exact h
        · exact hall y hy'
      · intro hall y hy
        exact hall y (List.mem_cons_of_mem x hy)

theorem findFirstLe_eq_some {b : ℚ} {l : List ℚ} {i : ℕ}
    (hi : i < l.length) (hle : l.getD i 0 ≤ b)
    (hmin : ∀ j, j < i → ¬ l.getD j 0 ≤ b) :
    findFirstLe b l = some i := by
  induction l generalizing i with
  | nil => simp at hi
  | cons x xs ih =>
    cases i with
    | zero =>
      rw [List.getD_cons_zero] at hle
      simp [findFirstLe, hle]
    | succ i =>
      have hx : ¬ x ≤ b := by
        have := hmin 0 (Nat.succ_pos i)
        rwa [List.getD_cons_zero] at this
      rw [List.length_cons, Nat.succ_lt_succ_iff] at hi
      rw [List.getD_cons_succ] at hle
      have hmin' : ∀ j, j < i → ¬ xs.getD j 0 ≤ b := by
        intro j hj
        have := hmin (j + 1) (by omega)
        rwa [List.getD_cons_succ] at this
      simp [findFirstLe, hx, ih hi hle hmin']


theorem linearSchedule_getLast (n : ℕ) (shift : ℚ) (hn : 1 ≤ n) :
    (linearSchedule n shift).getLast? = some 0 := by
  have hnq : ((n : ℚ)) ≠ 0 := Nat.cast_ne_zero.mpr (by omega)
  simp only [linearSchedule, List.range_succ]
  split
  · rw [List.map_append, List.map_append, List.map_cons, List.map_nil,
      List.map_cons, List.map_nil, List.getLast?_concat, div_self hnq]
    norm_num
  · rw [List.map_append, List.map_cons, List.map_nil, List.getLast?_concat,
      div_self hnq]
    norm_num

theorem continuousSchedule_getLast (n : ℕ) (shift : ℚ) (config : VariantConfig) :
    (continuousSchedule n shift config).getLast? = some 0 := by
  simp only [continuousSchedule, List.getLast?_concat]

/-! ### Claim theorems: scheduler -/

/-- Claim C1: for every variant registered in `MODEL_VARIANT_CONFIGS`,
`compute` with that variant's default parameters (its `default_steps` and
`default_shift`, no user timesteps, scheduler not explicitly chosen) returns
a schedule of length `default_steps + 1` whose last element is exactly 0. -/
theorem C1_default_schedule :
    ∀ p ∈ MODEL_VARIANT_CONFIGS,
      ∃ s, compute p.2 p.2.default_steps p.2.default_shift Option.none false =
          Except.ok s ∧
        s.length = p.2.default_steps + 1 ∧ s.getLast? = some 0 := by
  intro p hp
  fin_cases hp
  · exact ⟨_, rfl, linearSchedule_length 30 1,
      linearSchedule_getLast 30 1 (by omega)⟩
  · exact ⟨_, rfl, linearSchedule_length 30 1,
      linearSchedule_getLast 30 1 (by omega)⟩
  · refine ⟨_, rfl, ?_, List.getLast?_concat _⟩
    rw [List.length_append, TURBO_SHIFT_TIMESTEPS_length]
    rfl
  · exact ⟨_, rfl, linearSchedule_length 8 1,
      linearSchedule_getLast 8 1 (by omega)⟩
  · exact ⟨_, rfl, linearSchedule_length 8 3,
      linearSchedule_getLast 8 3 (by omega)⟩
  · exact ⟨_, rfl, continuousSchedule_length 8 3 turboContinuousConfig,
      continuousSchedule_getLast 8 3 turboContinuousConfig⟩

/-- Witness for C1 at the "acestep-v15-turbo" registry entry. -/
theorem C1_default_schedule_witness :
    ∃ s, compute turboConfig turboConfig.default_steps turboConfig.default_shift
        Option.none false = Except.ok s ∧
      s.length = turboConfig.default_steps + 1 ∧ s.getLast? = some 0 :=
  C1_default_schedule ("acestep-v15-turbo", turboConfig)
    (List.mem_cons_of_mem _ (List.mem_cons_of_mem _ (List.mem_cons_self _ _)))

theorem compute_sft_two_steps :
    compute sftConfig 2 1 Option.none false = Except.ok [1, 1/2, 0] := by
  have h : compute sftConfig 2 1 Option.none false =
      Except.ok (linearSchedule 2 1) := rfl
  rw [h, linearSchedule]
  norm_num [List.range_succ]

/-- Counterexample for claim C2 as stated: the sft variant (whose
`custom_timesteps` mode is `with_terminal`) produces the schedule
[1, 1/2, 0] for 2 steps, but feeding that schedule's evaluation timesteps
(its entries excluding the terminal) back into `compute` as user timesteps
does not return the same schedule: the `with_terminal` mode accepts the
sequence as-is, so the terminal 0 is missing from the result. -/
theorem C2_roundtrip_counterexample :
    compute sftConfig 2 1 Option.none false = Except.ok [1, 1/2, 0] ∧
    compute sftConfig 2 1 (some ([1, 1/2, 0].dropLast)) false ≠
      Except.ok [1, 1/2, 0] := by
  refine ⟨compute_sft_two_steps, ?_⟩
  have h : compute sftConfig 2 1 (some ([1, 1/2, 0].dropLast)) false =
      Except.ok [1, 1/2] := rfl
  rw [h]
  simp

/-- Claim C2 (amended): for every schedule produced by `compute` with at
least one step, feeding the full schedule — its terminal included — back
into `compute` as user timesteps, under a config whose `custom_timesteps`
mode is `with_terminal`, returns the same schedule. -/
theorem C2_roundtrip_amended :
    ∀ (cfgP cfgF : VariantConfig) (n : ℕ) (shift : ℚ) (ts : Option (List ℚ))
      (ex : Bool) (s : List ℚ) (n2 : ℕ) (shift2 : ℚ) (ex2 : Bool),
      compute cfgP n shift ts ex = Except.ok s → 1 ≤ n →
      cfgF.custom_timesteps = CustomMode.with_terminal →
      compute cfgF n2 shift2 (some s) ex2 = Except.ok s := by
  intro cfgP cfgF n shift ts ex s n2 shift2 ex2 h hn hw
  have hlen : 2 ≤ s.length := compute_ok_length h hn
  unfold compute customResult tryCustom
  rw [hw]
  simp [Nat.not_lt.mpr hlen]

/-- Witness for C2 (amended): the 2-step sft schedule round-trips. -/
theorem C2_roundtrip_amended_witness :
    compute sftConfig 2 1 (some [1, 1/2, 0]) false = Except.ok [1, 1/2, 0] :=
  C2_roundtrip_amended sftConfig sftConfig 2 1 Option.none false [1, 1/2, 0]
    2 1 false compute_sft_two_steps (by omega) rfl

/-- Claim C3: `truncate` returns the schedule unchanged when
`t_start ≥ 1 − ε` (ε = 1e-6); otherwise it returns the suffix starting at
the first evaluation timestep (terminal excluded from the search) that is
`≤ t_start + ε`, through the terminal inclusive; when no evaluation
timestep satisfies the bound it returns the schedule unchanged; and in
particular `truncate [1, 0.75, 0.5, 0.25, 0] 0.6 = [0.5, 0.25, 0]`. -/
theorem C3_truncate_spec :
    (∀ (s : List ℚ) (t : ℚ), 1 - 1/1000000 ≤ t → truncate s t = s) ∧
    (∀ (s : List ℚ) (t : ℚ), t < 1 - 1/1000000 →
      (∀ x ∈ s.dropLast, ¬ x ≤ t + 1/1000000) → truncate s t = s) ∧
    (∀ (s : List ℚ) (t : ℚ) (i : ℕ), t < 1 - 1/1000000 →
      i < s.dropLast.length → s.dropLast.getD i 0 ≤ t + 1/1000000 →
      (∀ j, j < i → ¬ s.dropLast.getD j 0 ≤ t + 1/1000000) →
      truncate s t = s.drop i) ∧
    truncate [1, 3/4, 1/2, 1/4, 0] (3/5) = [1/2, 1/4, 0] := by
  have key : ∀ (s : List ℚ) (t : ℚ) (i : ℕ), t < 1 - 1/1000000 →
      i < s.dropLast.length → s.dropLast.getD i 0 ≤ t + 1/1000000 →
      (∀ j, j < i → ¬ s.dropLast.getD j 0 ≤ t + 1/1000000) →
      truncate s t = s.drop i := by
    intro s t i ht hi hle hmin
    rw [truncate, if_neg (not_le.mpr ht), findFirstLe_eq_some hi hle hmin]
  refine ⟨?_, ?_, key, ?_⟩
  · intro s t ht
    rw [truncate, if_pos ht]
  · intro s t ht hall
    rw [truncate, if_neg (not_le.mpr ht), findFirstLe_eq_none_iff.mpr hall]
  · have h2 := key [1, 3/4, 1/2, 1/4, 0] (3/5) 2 (by norm_num) (by norm_num)
      (by norm_num [List.getD])
      (by
        intro j hj
        interval_cases j <;> norm_num [List.getD])
    rw [h2]
    rfl

/-- Witness for C3: the identity branch at `t_start = 1` and the
first-index branch on the example schedule. -/
theorem C3_truncate_spec_witness :
    truncate [1, 3/4, 1/2, 1/4, 0] 1 = [1, 3/4, 1/2, 1/4, 0] ∧
    truncate [1, 3/4, 1/2, 1/4, 0] (3/5) = [1, 3/4, 1/2, 1/4, 0].drop 2 :=
  ⟨C3_truncate_spec.1 [1, 3/4, 1/2, 1/4, 0] 1 (by norm_num),
   C3_truncate_spec.2.2.1 [1, 3/4, 1/2, 1/4, 0] (3/5) 2 (by norm_num)
     (by norm_num) (by norm_num [List.getD])
     (by
       intro j hj
       interval_cases j <;> norm_num [List.getD])⟩

/-- Claim C4: under discrete timestep mode with `num_steps ≠ 8` and no
valid custom timesteps (and no forced shift, as holds for every
discrete-mode variant), `compute` fails when the scheduler was explicitly
chosen, and otherwise falls back to the linear schedule for `num_steps`
and the original shift, of length `num_steps + 1`, without failing. -/
theorem C4_discrete_non8 :
    ∀ (config : VariantConfig) (n : ℕ) (shift : ℚ) (ts : Option (List ℚ)),
      config.timestep_mode = TMode.discrete →
      config.forced_shift = Option.none →
      customResult config ts = Option.none →
      n ≠ 8 →
      (∃ msg, compute config n shift ts true = Except.error msg) ∧
      (compute config n shift ts false = Except.ok (linearSchedule n shift) ∧
        (linearSchedule n shift).length = n + 1) := by
  intro config n shift ts hm hf hc hn
  have he : ∀ ex, compute config n shift ts ex = discreteSchedule shift n ex := by
    intro ex
    unfold compute
    rw [hc, hf, hm]
    rfl
  refine ⟨?_, ?_, linearSchedule_length n shift⟩
  · rw [he true]
    unfold discreteSchedule
    rw [if_pos hn]
    exact ⟨_, rfl⟩
  · rw [he false]
    unfold discreteSchedule
    rw [if_pos hn]
    rfl

/-- Witness for C4: the turbo variant with 5 steps. -/
theorem C4_discrete_non8_witness :
    (∃ msg, compute turboConfig 5 1 Option.none true = Except.error msg) ∧
    (compute turboConfig 5 1 Option.none false =
        Except.ok (linearSchedule 5 1) ∧
      (linearSchedule 5 1).length = 5 + 1) :=
  C4_discrete_non8 turboConfig 5 1 Option.none rfl rfl rfl (by omega)

/-- Claim C8: the derived config produced for a scheduler override differs
from the base config only in `timestep_mode` — every other field is
unchanged — and a set `forced_shift` still overrides any caller-provided
shift in the subsequent schedule computation. -/
theorem C8_override_config :
    ∀ (config : VariantConfig) (mode : TMode),
      (overrideConfig config mode).use_cfg = config.use_cfg ∧
      (overrideConfig config mode).default_shift = config.default_shift ∧
      (overrideConfig config mode).forced_shift = config.forced_shift ∧
      (overrideConfig config mode).default_steps = config.default_steps ∧
      (overrideConfig config mode).sde_renoise_linear = config.sde_renoise_linear ∧
      (overrideConfig config mode).custom_timesteps = config.custom_timesteps ∧
      (overrideConfig config mode).shift_range = config.shift_range ∧
      (overrideConfig config mode).timestep_mode = mode ∧
      (∀ (fs : ℚ) (n : ℕ) (shift : ℚ) (ts : Option (List ℚ)) (ex : Bool),
        config.forced_shift = some fs →
        compute (overrideConfig config mode) n shift ts ex =
          compute (overrideConfig config mode) n fs ts ex) := by
  intro config mode
  refine ⟨rfl, rfl, rfl, rfl, rfl, rfl, rfl, rfl, ?_⟩
  intro fs n shift ts ex hfs
  have h : (overrideConfig config mode).forced_shift = some fs := hfs
  unfold compute
  rw [h]
  rfl

/-- Witness for C8: the turbo-shift3 config, overridden to continuous mode,
still forces shift 3: a caller shift of 7 yields the same schedule. -/
theorem C8_override_config_witness :
    compute (overrideConfig turboShift3Config TMode.continuous) 4 7
        Option.none false =
      compute (overrideConfig turboShift3Config TMode.continuous) 4 3
        Option.none false :=
  (C8_override_config turboShift3Config TMode.continuous).2.2.2.2.2.2.2.2
    3 4 7 Option.none false rfl

/-! ### Helper lemmas about the diffusion loop -/

section LoopLemmas

variable {L C M X K B : Type}

theorem coverSwitch_xt (ctx : RunCtx L C M X K B) (i : ℕ)
    (s : LoopState L C M X K B) : (coverSwitch ctx i s).xt = s.xt := by
  cases hnc : s.non_cover with
  | none => simp only [coverSwitch, hnc]
  | some nc0 =>
    simp only [coverSwitch, hnc]
    split
    · split <;> rfl
    · rfl

theorem coverSwitch_isSome (ctx : RunCtx L C M X K B) (i : ℕ)
    (s : LoopState L C M X K B) :
    (coverSwitch ctx i s).non_cover.isSome = s.non_cover.isSome := by
  cases hnc : s.non_cover with
  | none => simp only [coverSwitch, hnc]
  | some nc0 =>
    simp only [coverSwitch, hnc]
    split
    · split <;> simp [hnc]
    · simp [hnc]

theorem coverSwitch_of_lt (ctx : RunCtx L C M X K B) (i : ℕ)
    (s : LoopState L C M X K B) (h : i < ctx.coverSteps) :
    coverSwitch ctx i s = s := by
  cases hnc : s.non_cover with
  | none => simp only [coverSwitch, hnc]
  | some nc0 =>
    simp only [coverSwitch, hnc]
    rw [if_neg (by omega)]

theorem coverSwitch_cache (ctx : RunCtx L C M X K B) (i : ℕ)
    (s : LoopState L C M X K B) (nc0 : NonCover C M X)
    (hnc : s.non_cover = some nc0) (hle : ctx.coverSteps ≤ i) :
    (coverSwitch ctx i s).past_key_values = ctx.env.emptyCache := by
  simp only [coverSwitch, hnc]
  rw [if_pos hle]
  split <;> rfl

theorem coverSwitch_of_doubled (ctx : RunCtx L C M X K B) (i : ℕ)
    (s : LoopState L C M X K B) (hd : s.cover_cfg_doubled = true) :
    (coverSwitch ctx i s).cover_cfg_doubled = true ∧
    (coverSwitch ctx i s).nc_double_count = s.nc_double_count := by
  cases hnc : s.non_cover with
  | none => simp [coverSwitch, hnc, hd]
  | some nc0 =>
    simp only [coverSwitch, hnc]
    split
    · rw [if_neg (by simp [hd])]
      simp [hd]
    · simp [hd]

theorem coverSwitch_trigger (ctx : RunCtx L C M X K B) (i : ℕ)
    (s : LoopState L C M X K B) (nc0 : NonCover C M X)
    (hnc : s.non_cover = some nc0) (hle : ctx.coverSteps ≤ i)
    (hcfg : doCfgGuidance ctx.cfg ctx.guidance_scale = true)
    (hd : s.cover_cfg_doubled = false) :
    (coverSwitch ctx i s).cover_cfg_doubled = true ∧
    (coverSwitch ctx i s).nc_double_count = s.nc_double_count + 1 := by
  simp only [coverSwitch, hnc]
  rw [if_pos hle, if_pos (show _ ∧ _ from ⟨hcfg, hd⟩)]
  simp

theorem runStep_snd_non_cover [Sub L] [SMul ℚ L] (ctx : RunCtx L C M X K B)
    (i : ℕ) (s : LoopState L C M X K B) :
    ((runStep ctx i s).2).non_cover = (coverSwitch ctx i s).non_cover := rfl

theorem runStep_snd_doubled [Sub L] [SMul ℚ L] (ctx : RunCtx L C M X K B)
    (i : ℕ) (s : LoopState L C M X K B) :
    ((runStep ctx i s).2).cover_cfg_doubled =
      (coverSwitch ctx i s).cover_cfg_doubled := rfl

theorem runStep_snd_count [Sub L] [SMul ℚ L] (ctx : RunCtx L C M X K B)
    (i : ℕ) (s : LoopState L C M X K B) :
    ((runStep ctx i s).2).nc_double_count =
      (coverSwitch ctx i s).nc_double_count := rfl

theorem runStep_snd_xt [Sub L] [SMul ℚ L] (ctx : RunCtx L C M X K B)
    (i : ℕ) (s : LoopState L C M X K B) :
    ((runStep ctx i s).2).xt =
      stepUpdate ctx i (coverSwitch ctx i s).xt ((runStep ctx i s).1.vt) := rfl

theorem runStep_fst_cacheIn [Sub L] [SMul ℚ L] (ctx : RunCtx L C M X K B)
    (i : ℕ) (s : LoopState L C M X K B) :
    ((runStep ctx i s).1).cacheIn = (coverSwitch ctx i s).past_key_values := rfl

theorem runStep_vt_const [Sub L] [SMul ℚ L] (ctx : RunCtx L C M X K B)
    (i : ℕ) (s : LoopState L C M X K B) (pred : L)
    (hcfg : doCfgGuidance ctx.cfg ctx.guidance_scale = false)
    (hdec : ∀ x t am e em c k, (ctx.env.decoder x t am e em c k).1 = pred) :
    ((runStep ctx i s).1).vt = pred := by
  have h : ((runStep ctx i s).1).vt =
      (guide ctx (coverSwitch ctx i s).xt (ctx.schedule.getD i 0)
        ((ctx.env.decoder
          (if doCfgGuidance ctx.cfg ctx.guidance_scale then
            ctx.env.catL (coverSwitch ctx i s).xt (coverSwitch ctx i s).xt
          else (coverSwitch ctx i s).xt)
          (ctx.schedule.getD i 0) ctx.attention_mask
          (coverSwitch ctx i s).encoder_hidden_states
          (coverSwitch ctx i s).encoder_attention_mask
          (coverSwitch ctx i s).context_latents
          (coverSwitch ctx i s).past_key_values).1)
        ((coverSwitch ctx i s).momentum_buffer)).1 := rfl
  rw [h, hdec]
  unfold guide
  rw [if_neg (by rw [hcfg]; exact Bool.false_ne_true)]

theorem stepUpdate_final [Sub L] [SMul ℚ L] (ctx : RunCtx L C M X K B)
    (i : ℕ) (x vt : L) (hfin : i + 1 = ctx.numSteps) :
    stepUpdate ctx i x vt =
      ctx.env.get_x0_from_noise x vt (ctx.schedule.getD i 0) := by
  simp only [stepUpdate]
  rw [if_pos hfin]

theorem stepUpdate_sde [Sub L] [SMul ℚ L] (ctx : RunCtx L C M X K B)
    (i : ℕ) (x vt : L) (hm : ctx.infer_method = "sde")
    (hfin : i + 1 ≠ ctx.numSteps) :
    stepUpdate ctx i x vt =
      ctx.env.renoise
        (ctx.env.get_x0_from_noise x vt (ctx.schedule.getD i 0))
        (if ctx.cfg.sde_renoise_linear then
          1 - ((i : ℚ) + 1) / (ctx.numSteps : ℚ)
        else ctx.schedule.getD (i + 1) 0) := by
  simp only [stepUpdate]
  rw [if_neg hfin, if_pos hm]

theorem stepUpdate_ode [Sub L] [SMul ℚ L] (ctx : RunCtx L C M X K B)
    (i : ℕ) (x vt : L) (hm : ctx.infer_method = "ode")
    (hfin : i + 1 ≠ ctx.numSteps) :
    stepUpdate ctx i x vt =
      x - (ctx.schedule.getD i 0 - ctx.schedule.getD (i + 1) 0) • vt := by
  simp only [stepUpdate]
  rw [if_neg hfin, if_neg (by rw [hm]; intro hcon; exact absurd hcon (by decide)),
    if_pos hm]

end LoopLemmas

section LoopInvariants

variable {L C M X K B : Type}

theorem stateAt_succ [Sub L] [SMul ℚ L] (ctx : RunCtx L C M X K B)
    (s0 : LoopState L C M X K B) (i : ℕ) :
    stateAt ctx s0 (i + 1) = (runStep ctx i (stateAt ctx s0 i)).2 := rfl

theorem stateAt_isSome [Sub L] [SMul ℚ L] (ctx : RunCtx L C M X K B)
    (s0 : LoopState L C M X K B) (h : s0.non_cover.isSome = true) (i : ℕ) :
    (stateAt ctx s0 i).non_cover.isSome = true := by
  induction i with
  | zero => exact h
  | succ i ih =>
    rw [stateAt_succ, runStep_snd_non_cover, coverSwitch_isSome]
    exact ih

theorem stateAt_pre [Sub L] [SMul ℚ L] (ctx : RunCtx L C M X K B)
    (s0 : LoopState L C M X K B) (i : ℕ) (h : i ≤ ctx.coverSteps) :
    (stateAt ctx s0 i).non_cover = s0.non_cover ∧
    (stateAt ctx s0 i).cover_cfg_doubled = s0.cover_cfg_doubled ∧
    (stateAt ctx s0 i).nc_double_count = s0.nc_double_count := by
  induction i with
  | zero => exact ⟨rfl, rfl, rfl⟩
  | succ i ih =>
    have hlt : i < ctx.coverSteps := by omega
    have hs := ih (by omega)
    refine ⟨?_, ?_, ?_⟩
    · rw [stateAt_succ, runStep_snd_non_cover, coverSwitch_of_lt ctx i _ hlt, hs.1]
    · rw [stateAt_succ, runStep_snd_doubled, coverSwitch_of_lt ctx i _ hlt, hs.2.1]
    · rw [stateAt_succ, runStep_snd_count, coverSwitch_of_lt ctx i _ hlt, hs.2.2]

theorem stateAt_post_doubled [Sub L] [SMul ℚ L] (ctx : RunCtx L C M X K B)
    (s0 : LoopState L C M X K B) (i : ℕ)
    (h : (stateAt ctx s0 i).cover_cfg_doubled = true) (k : ℕ) :
    (stateAt ctx s0 (i + k)).cover_cfg_doubled = true ∧
    (stateAt ctx s0 (i + k)).nc_double_count =
      (stateAt ctx s0 i).nc_double_count := by
  induction k with
  | zero => exact ⟨h, rfl⟩
  | succ k ih =>
    have hstep := coverSwitch_of_doubled ctx (i + k) (stateAt ctx s0 (i + k)) ih.1
    constructor
    · rw [show i + (k + 1) = (i + k) + 1 from rfl, stateAt_succ,
        runStep_snd_doubled, hstep.1]
    · rw [show i + (k + 1) = (i + k) + 1 from rfl, stateAt_succ,
        runStep_snd_count, hstep.2, ih.2]

theorem loop_doubles_once [Sub L] [SMul ℚ L] (ctx : RunCtx L C M X K B)
    (s0 : LoopState L C M X K B)
    (hnc : s0.non_cover.isSome = true) (hd : s0.cover_cfg_doubled = false)
    (hc : s0.nc_double_count = 0)
    (hcfg : doCfgGuidance ctx.cfg ctx.guidance_scale = true)
    (m : ℕ) (hm : ctx.coverSteps < m) :
    (stateAt ctx s0 m).nc_double_count = 1 := by
  obtain ⟨nc0, hnc0⟩ := Option.isSome_iff_exists.mp hnc
  have hpre := stateAt_pre ctx s0 ctx.coverSteps (le_refl _)
  have htr := coverSwitch_trigger ctx ctx.coverSteps
    (stateAt ctx s0 ctx.coverSteps) nc0 (hpre.1.trans hnc0) (le_refl _) hcfg
    (hpre.2.1.trans hd)
  have hstep : (stateAt ctx s0 (ctx.coverSteps + 1)).cover_cfg_doubled = true ∧
      (stateAt ctx s0 (ctx.coverSteps + 1)).nc_double_count = 1 := by
    constructor
    · rw [stateAt_succ, runStep_snd_doubled, htr.1]
    · rw [stateAt_succ, runStep_snd_count, htr.2, hpre.2.2, hc]
  obtain ⟨k, hk⟩ : ∃ k, m = (ctx.coverSteps + 1) + k :=
    ⟨m - (ctx.coverSteps + 1), by omega⟩
  have hpost := stateAt_post_doubled ctx s0 (ctx.coverSteps + 1) hstep.1 k
  rw [hk, hpost.2, hstep.2]

theorem coverStepsOf_lt (n : ℕ) (strength : ℚ) (h0 : 0 ≤ strength)
    (h1 : strength < 1) (hn : 1 ≤ n) : coverStepsOf n strength < n := by
  unfold coverStepsOf
  have hnp : (0 : ℚ) < (n : ℚ) := by exact_mod_cast Nat.lt_of_lt_of_le Nat.zero_lt_one hn
  have hlt : (n : ℚ) * strength < (n : ℚ) := by
    calc (n : ℚ) * strength < (n : ℚ) * 1 := by
          exact mul_lt_mul_of_pos_left h1 hnp
      _ = (n : ℚ) := mul_one _
  have hfl : ⌊(n : ℚ) * strength⌋ < (n : ℤ) := Int.floor_lt.mpr (by exact_mod_cast hlt)
  omega

end LoopInvariants

/-! ### Claim theorems: diffusion loop -/

/-- Claim C5: on every non-final step of a run with `infer_method = "sde"`,
the next latent equals `renoise(get_x0_from_noise(latent, prediction,
t_curr), t_next)`, where `t_next = 1 − (step_idx+1)/num_steps` when
`config.sde_renoise_linear` is true, and `t_next = schedule[step_idx+1]`
otherwise. -/
theorem C5_sde_step :
    ∀ {L C M X K B : Type} [Sub L] [SMul ℚ L]
      (ctx : RunCtx L C M X K B) (s0 : LoopState L C M X K B) (i : ℕ),
      ctx.infer_method = "sde" → i + 1 < ctx.numSteps →
      (stateAt ctx s0 (i + 1)).xt =
        ctx.env.renoise
          (ctx.env.get_x0_from_noise (stateAt ctx s0 i).xt
            (recordAt ctx s0 i).vt (ctx.schedule.getD i 0))
          (if ctx.cfg.sde_renoise_linear then
            1 - ((i : ℚ) + 1) / (ctx.numSteps : ℚ)
          else ctx.schedule.getD (i + 1) 0) := by
  intro L C M X K B _ _ ctx s0 i hm hi
  rw [stateAt_succ, runStep_snd_xt, coverSwitch_xt,
    stepUpdate_sde ctx i _ _ hm (by omega)]
  rfl

/-- Claim C6: a 2-step run under ODE stepping with a decoder returning a
fixed prediction `pred` (and CFG inactive) produces
`latent_1 = latent_0 − pred·(t0 − t1)` after the first step, and the final
latent is `get_x0_from_noise(latent_1, pred, t1)` computed by the external
model — the loop performs no stepping after the final step. -/
theorem C6_ode_two_step :
    ∀ {L C M X K B : Type} [Sub L] [SMul ℚ L]
      (ctx : RunCtx L C M X K B) (s0 : LoopState L C M X K B)
      (t0 t1 tT : ℚ) (pred : L),
      ctx.schedule = [t0, t1, tT] →
      ctx.infer_method = "ode" →
      doCfgGuidance ctx.cfg ctx.guidance_scale = false →
      (∀ x t am e em c k, (ctx.env.decoder x t am e em c k).1 = pred) →
      (stateAt ctx s0 1).xt = s0.xt - (t0 - t1) • pred ∧
      finalLatent ctx s0 =
        ctx.env.get_x0_from_noise (s0.xt - (t0 - t1) • pred) pred t1 := by
  intro L C M X K B _ _ ctx s0 t0 t1 tT pred hsch hm hcfg hdec
  have hn : ctx.numSteps = 2 := by
    rw [RunCtx.numSteps, hsch]
    rfl
  have h1 : (stateAt ctx s0 1).xt = s0.xt - (t0 - t1) • pred := by
    rw [stateAt_succ, runStep_snd_xt, coverSwitch_xt,
      runStep_vt_const ctx 0 _ pred hcfg hdec,
      stepUpdate_ode ctx 0 _ _ hm (by omega), hsch]
    rfl
  refine ⟨h1, ?_⟩
  rw [finalLatent, hn, stateAt_succ, runStep_snd_xt, coverSwitch_xt,
    runStep_vt_const ctx 1 _ pred hcfg hdec,
    stepUpdate_final ctx 1 _ _ (by omega), hsch, h1]
  rfl

/-- Claim C7: in every run with CFG active and cover blending active
(blend strength in [0, 1), non-cover conditioning prepared by the setup),
the CFG batch-doubling of the non-cover conditioning is performed exactly
once over the whole loop, regardless of how many steps have index at or
past the switch index `floor(num_steps * strength)`. -/
theorem C7_nc_double_once :
    ∀ {L C M X K B : Type} [Sub L] [SMul ℚ L]
      (ctx : RunCtx L C M X K B) (xt0 : L) (enc0 : C) (em0 : M) (cl0 : X)
      (am0 : M) (nc0 : NonCover C M X) (strength : ℚ),
      doCfgGuidance ctx.cfg ctx.guidance_scale = true →
      0 ≤ strength → strength < 1 → 1 ≤ ctx.numSteps →
      ctx.coverSteps = coverStepsOf ctx.numSteps strength →
      (stateAt ctx
        (cfgSetup ctx.env ctx.cfg ctx.guidance_scale xt0 enc0 em0 cl0 am0
          (some nc0)).state
        ctx.numSteps).nc_double_count = 1 := by
  intro L C M X K B _ _ ctx xt0 enc0 em0 cl0 am0 nc0 strength hcfg h0 h1 hn hcs
  have hlt : ctx.coverSteps < ctx.numSteps := by
    rw [hcs]
    exact coverStepsOf_lt ctx.numSteps strength h0 h1 hn
  have hsetup :
      (cfgSetup ctx.env ctx.cfg ctx.guidance_scale xt0 enc0 em0 cl0 am0
        (some nc0)).state.non_cover = some nc0 ∧
      (cfgSetup ctx.env ctx.cfg ctx.guidance_scale xt0 enc0 em0 cl0 am0
        (some nc0)).state.cover_cfg_doubled = false ∧
      (cfgSetup ctx.env ctx.cfg ctx.guidance_scale xt0 enc0 em0 cl0 am0
        (some nc0)).state.nc_double_count = 0 := by
    unfold cfgSetup
    rw [if_pos hcfg]
    exact ⟨rfl, rfl, rfl⟩
  exact loop_doubles_once ctx _ (by rw [hsetup.1]; rfl) hsetup.2.1 hsetup.2.2
    hcfg ctx.numSteps hlt

/-- Claim C9: the guidance plugin is loaded if and only if CFG is actually
applied — `config.use_cfg` is true and the guidance scale exceeds 1 — and
for a variant with `use_cfg = false` the load is never attempted,
regardless of the scale. -/
theorem C9_guidance_load :
    ∀ {L C M X K B : Type} (env : DiffEnv L C M X K B)
      (config : VariantConfig) (gs : ℚ) (xt : L) (enc : C) (em : M) (cl : X)
      (am : M) (nc : Option (NonCover C M X)),
      ((cfgSetup env config gs xt enc em cl am nc).guidance_loaded = true ↔
        config.use_cfg = true ∧ 1 < gs) ∧
      (config.use_cfg = false →
        (cfgSetup env config gs xt enc em cl am nc).guidance_loaded = false) := by
  intro L C M X K B env config gs xt enc em cl am nc
  have hl : (cfgSetup env config gs xt enc em cl am nc).guidance_loaded =
      doCfgGuidance config gs := by
    unfold cfgSetup
    split
    · rename_i h
      exact h.symm
    · rename_i h
      simp only [Bool.not_eq_true] at h
      exact h.symm
  rw [hl]
  unfold doCfgGuidance
  constructor
  · simp
  · intro hf
    rw [hf]
    rfl

/-- Claim C10: in every run with non-cover conditioning present, the
key-value cache passed to the decoder is the fresh empty cache on every
step whose index is at or past the cover switch index — not only on the
switch step itself. -/
theorem C10_cache_reset :
    ∀ {L C M X K B : Type} [Sub L] [SMul ℚ L]
      (ctx : RunCtx L C M X K B) (s0 : LoopState L C M X K B) (i : ℕ),
      s0.non_cover.isSome = true →
      ctx.coverSteps ≤ i → i < ctx.numSteps →
      (recordAt ctx s0 i).cacheIn = ctx.env.emptyCache := by
  intro L C M X K B _ _ ctx s0 i hnc hle _
  obtain ⟨nc0, h0⟩ :=
    Option.isSome_iff_exists.mp (stateAt_isSome ctx s0 hnc i)
  rw [show (recordAt ctx s0 i).cacheIn =
      (runStep ctx i (stateAt ctx s0 i)).1.cacheIn from rfl,
    runStep_fst_cacheIn]
  exact coverSwitch_cache ctx i _ nc0 h0 hle

/-- Witness for C5 at step 0 of the concrete 2-step SDE run. -/
theorem C5_sde_step_witness :
    (stateAt sdeCtx sampleState (0 + 1)).xt =
      sdeCtx.env.renoise
        (sdeCtx.env.get_x0_from_noise (stateAt sdeCtx sampleState 0).xt
          (recordAt sdeCtx sampleState 0).vt (sdeCtx.schedule.getD 0 0))
        (if sdeCtx.cfg.sde_renoise_linear then
          1 - ((0 : ℚ) + 1) / (sdeCtx.numSteps : ℚ)
        else sdeCtx.schedule.getD (0 + 1) 0) :=
  C5_sde_step sdeCtx sampleState 0 rfl (by decide)

/-- Witness for C6 at the concrete 2-step ODE run with fixed prediction 2. -/
theorem C6_ode_two_step_witness :
    (stateAt odeCtx sampleState 1).xt =
      sampleState.xt - ((1 : ℚ) - 1/2) • (2 : ℚ) ∧
    finalLatent odeCtx sampleState =
      odeCtx.env.get_x0_from_noise
        (sampleState.xt - ((1 : ℚ) - 1/2) • (2 : ℚ)) 2 (1/2) :=
  C6_ode_two_step odeCtx sampleState 1 (1/2) 0 2 rfl rfl rfl
    (fun _ _ _ _ _ _ _ => rfl)

/-- Witness for C7 at the concrete CFG run with cover switch at step 1. -/
theorem C7_nc_double_once_witness :
    (stateAt cfgCtx
      (cfgSetup cfgCtx.env cfgCtx.cfg cfgCtx.guidance_scale 1 0 0 0 1
        (some sampleNC)).state
      cfgCtx.numSteps).nc_double_count = 1 :=
  C7_nc_double_once cfgCtx 1 0 0 0 1 sampleNC (1/2)
    (by simp only [cfgCtx, doCfgGuidance, baseConfig, Bool.true_and,
          decide_eq_true_eq]
        norm_num)
    (by norm_num) (by norm_num) (by decide) rfl

/-- Witness for C9: the turbo variant never attempts the plugin load even
at guidance scale 5. -/
theorem C9_guidance_load_witness :
    (cfgSetup sampleEnv turboConfig 5 (1 : ℚ) 0 0 0 0
      Option.none).guidance_loaded = false :=
  (C9_guidance_load sampleEnv turboConfig 5 1 0 0 0 0 Option.none).2 rfl

/-- Witness for C10: step 1 of the concrete CFG run (at the switch index)
receives the fresh empty cache. -/
theorem C10_cache_reset_witness :
    (recordAt cfgCtx sampleState 1).cacheIn = cfgCtx.env.emptyCache :=
  C10_cache_reset cfgCtx sampleState 1 rfl
    (by norm_num [cfgCtx, coverStepsOf]) (by decide)
